import Mathlib

/-!
# Seitokai event dispatch and gateway-connection subsystem: a shallow embedding

This file embeds, in Lean 4, the core of the Seitokai client library
(`src/seitokai/impl/{event_manager,websocket,bot,dispatch}.py` and
`src/seitokai/events/_messages.py`) and proves or refutes the frozen claims
about it.

Modelling conventions:
* JSON values (`json.loads` output) are the inductive `Json`; a text frame
  whose contents are not valid JSON is represented as `none : Option Json`
  (the parser itself is the Python standard library, external to the repo).
* Python callbacks are identified by abstract identities (`Nat`): the
  dispatcher only stores, compares and schedules them, never calls them
  inline, so their identity is all that matters to the embedded code.
* `anyio` memory object streams are `MemoryStream`: a bounded buffer plus a
  closed/broken flag.  `send_nowait` appends when below capacity, reports
  `WouldBlock` when full, and reports a broken/closed resource when the flag
  is set — exactly the three branches the source distinguishes.
* Mutating methods become functions from state to state (paired with the
  observable actions they perform); methods that can raise return `Except`.
-/

/-- Exceptions raised by the embedded Python code. -/
inductive PyErr where
  /-- `KeyError` from `d[k]` on a missing key (the key is recorded). -/
  | keyError (key : String)
  /-- `ValueError`, e.g. from `list.remove` on an absent element or a bad UUID. -/
  | valueError
  /-- `RuntimeError(msg)` used for lifecycle usage errors. -/
  | runtimeError (msg : String)
  /-- `TypeError`, e.g. from `uuid.UUID` on a non-string argument. -/
  | typeError
  deriving Repr, DecidableEq

/-- JSON values as produced by `json.loads`. -/
inductive Json where
  | null
  | bool (b : Bool)
  | num (n : Int)
  | str (s : String)
  | arr (elements : List Json)
  | obj (fields : List (String × Json))

/-- Key lookup in a JSON object, mirroring `payload.get(k)`: `none` both when
the key is absent and when the value is not an object. -/
def Json.get? (j : Json) (key : String) : Option Json :=
  match j with
  | .obj fields => lookupField fields
  | _ => none
where
  lookupField : List (String × Json) → Option Json
    | [] => none
    | (k, v) :: rest => if k = key then some v else lookupField rest

/-- `payload[k]`: like `get?` but raising `KeyError` on a miss. -/
def Json.getItem (j : Json) (key : String) : Except PyErr Json :=
  match j.get? key with
  | some v => .ok v
  | none => .error (.keyError key)

/-- Python truthiness of a JSON value (`if value:`): `None`, `False`, `0`,
`""`, `[]` and `{}` are falsy, everything else truthy. -/
def Json.pyTruthy : Json → Bool
  | .null => false
  | .bool b => b
  | .num n => n != 0
  | .str s => !s.isEmpty
  | .arr elements => !elements.isEmpty
  | .obj fields => !fields.isEmpty

/-- Python's `value == 0` on a JSON value: `0 == 0` and `False == 0` are both
`True` in Python, everything else json.loads can produce compares unequal. -/
def Json.pyEqZero : Json → Bool
  | .num n => n == 0
  | .bool b => b == false
  | _ => false

/-! ## `anyio` memory object streams (bounded queues)

The send half of `anyio.create_memory_object_stream(buffer_size)`: a bounded
buffer of pending items plus a flag recording whether the receive half was
closed (which makes `send_nowait` raise `BrokenResourceError` /
`ClosedResourceError`). -/

structure MemoryStream (T : Type) where
  capacity : Nat
  buffer : List T
  closed : Bool

/-- Outcome of `stream.send_nowait(value)`. -/
inductive SendResult (T : Type) where
  /-- The value was enqueued; the updated stream is returned. -/
  | ok (stream : MemoryStream T)
  /-- `anyio.WouldBlock`: the buffer is full, nothing changes. -/
  | wouldBlock
  /-- `anyio.BrokenResourceError` / `anyio.ClosedResourceError`. -/
  | brokenOrClosed

/-- `send_nowait` on a memory object stream. -/
def MemoryStream.sendNowait (s : MemoryStream T) (value : T) : SendResult T :=
  if s.closed then .brokenOrClosed
  else if s.capacity ≤ s.buffer.length then .wouldBlock
  else .ok { s with buffer := s.buffer ++ [value] }

/-! ## `Dispatchable` (impl/event_manager.py lines 60-100; impl/dispatch.py
is the same code with public attribute names) -/

/-- Per-key fan-out unit: registered callbacks (by identity) and the send
halves of subscriber streams. -/
structure Dispatchable (T : Type) where
  callbacks : List Nat
  streams : List (MemoryStream T)

/-- A fresh `Dispatchable()`. -/
def Dispatchable.empty : Dispatchable T := ⟨[], []⟩

/-- `is_empty`: no callbacks and no subscriber streams remain. -/
def Dispatchable.isEmpty (d : Dispatchable T) : Bool :=
  d.callbacks.isEmpty && d.streams.isEmpty

/-- `add_callback`: appends (duplicates allowed). -/
def Dispatchable.addCallback (d : Dispatchable T) (cb : Nat) : Dispatchable T :=
  { d with callbacks := d.callbacks ++ [cb] }

/-- `remove_callback`: `list.remove` removes the first match and raises
`ValueError` when absent (in which case the state is unchanged). -/
def Dispatchable.removeCallback (d : Dispatchable T) (cb : Nat) :
    Except PyErr (Dispatchable T) :=
  if cb ∈ d.callbacks then .ok { d with callbacks := d.callbacks.erase cb }
  else .error .valueError

/-- `stream(buffer_size=n)`: appends a fresh open bounded send stream. -/
def Dispatchable.stream (d : Dispatchable T) (bufferSize : Nat) : Dispatchable T :=
  { d with streams := d.streams ++ [⟨bufferSize, [], false⟩] }

/-- The stream loop of `dispatch`: for every stream, attempt a non-blocking
enqueue; a broken/closed stream is removed from the list, a full one is kept
unchanged (the value is dropped), otherwise the value is appended. -/
def dispatchToStreams (streams : List (MemoryStream T)) (value : T) :
    List (MemoryStream T) :=
  match streams with
  | [] => []
  | s :: rest =>
    match s.sendNowait value with
    | .ok s' => s' :: dispatchToStreams rest value
    | .wouldBlock => s :: dispatchToStreams rest value
    | .brokenOrClosed => dispatchToStreams rest value

/-- `dispatch(task_group, value)`: updates every subscriber stream and returns
the callbacks scheduled on the task group, in registration order. -/
def Dispatchable.dispatch (d : Dispatchable T) (value : T) :
    Dispatchable T × List Nat :=
  ({ d with streams := dispatchToStreams d.streams value }, d.callbacks)

/-! ## Operation sequences on a `Dispatchable` (for the `is_empty` invariant) -/

/-- The operations a user can apply to a `Dispatchable` directly. -/
inductive DispOp where
  | addCallback (cb : Nat)
  /-- `remove_callback(cb)`; when `cb` is absent the `ValueError` leaves the
  state unchanged. -/
  | removeCallback (cb : Nat)
  | stream (bufferSize : Nat)

/-- Apply one operation to a `Dispatchable` (a failing removal raises and
leaves the state unchanged, so at the state level it is the identity). -/
def applyDispOp (d : Dispatchable T) : DispOp → Dispatchable T
  | .addCallback cb => d.addCallback cb
  | .removeCallback cb =>
    match d.removeCallback cb with
    | .ok d' => d'
    | .error _ => d
  | .stream bufferSize => d.stream bufferSize

/-- Apply a sequence of operations in order. -/
def applyDispOps (d : Dispatchable T) (ops : List DispOp) : Dispatchable T :=
  ops.foldl applyDispOp d

/-- The net multiset of registered callbacks after a sequence of operations:
each add inserts, each remove erases one occurrence (erasing an absent
callback is a no-op, matching the raised-and-ignored `ValueError`). -/
def netCallbackStep (acc : Multiset Nat) : DispOp → Multiset Nat
  | .addCallback cb => cb ::ₘ acc
  | .removeCallback cb => acc.erase cb
  | .stream _ => acc

/-- The net callback multiset of a whole sequence, starting from none. -/
def netCallbacks (ops : List DispOp) : Multiset Nat :=
  ops.foldl netCallbackStep 0

/-- The number of subscriber streams opened by a sequence of operations
(none of these operations can close one). -/
def netStreamCount (ops : List DispOp) : Nat :=
  ops.countP (fun op => match op with | .stream _ => true | _ => false)

/-! ## `uuid.UUID(hex)` (Python standard library, as called by the handlers)

`UUID(hex)` strips `urn:` / `uuid:` prefixes, surrounding braces and dashes,
requires exactly 32 hexadecimal digits and stores the 128-bit integer; any
violation raises `ValueError`.  UUID values are compared by that integer, so
the embedding represents a UUID as its integer value (`Nat`). -/

/-- Remove every occurrence of a (non-empty) pattern from a character list,
scanning left to right — `str.replace(pattern, "")`.  The fuel argument is
the length of the input, which bounds the recursion structurally. -/
def removeOccurrences (pattern : List Char) : Nat → List Char → List Char
  | _, [] => []
  | 0, cs => cs
  | fuel + 1, c :: rest =>
    if pattern ≠ [] ∧ pattern.isPrefixOf (c :: rest) then
      removeOccurrences pattern fuel ((c :: rest).drop pattern.length)
    else
      c :: removeOccurrences pattern fuel rest

/-- `s.replace(pattern, "")` for a non-empty pattern. -/
def pyReplaceEmpty (s pattern : String) : String :=
  ⟨removeOccurrences pattern.data s.data.length s.data⟩

/-- `s.strip("\x7b\x7d")`: drop leading and trailing brace characters. -/
def stripBraces (cs : List Char) : List Char :=
  ((cs.dropWhile (fun c => c = '{' || c = '}')).reverse.dropWhile
      (fun c => c = '{' || c = '}')).reverse

/-- The value of one hexadecimal digit, `none` for a non-hex character. -/
def hexDigit? (c : Char) : Option Nat :=
  if '0' ≤ c ∧ c ≤ '9' then some (c.toNat - '0'.toNat)
  else if 'a' ≤ c ∧ c ≤ 'f' then some (c.toNat - 'a'.toNat + 10)
  else if 'A' ≤ c ∧ c ≤ 'F' then some (c.toNat - 'A'.toNat + 10)
  else none

/-- The integer denoted by a list of hex digits, `none` if any is invalid. -/
def hexValue? (cs : List Char) : Option Nat :=
  cs.foldl
    (fun acc c =>
      match acc, hexDigit? c with
      | some v, some d => some (v * 16 + d)
      | _, _ => none)
    (some 0)

/-- `uuid.UUID(hex)`: the 128-bit integer of the UUID string, `none` when the
constructor raises `ValueError`. -/
def pyUUID (s : String) : Option Nat :=
  let cs := (pyReplaceEmpty (pyReplaceEmpty s "urn:") "uuid:").data
  let cs := (stripBraces cs).filter (fun c => c ≠ '-')
  if cs.length = 32 then hexValue? cs else none

/-- `uuid.UUID` applied to a JSON value: a non-string argument raises
`TypeError`, an invalid UUID string raises `ValueError`. -/
def pyUUIDOfJson (j : Json) : Except PyErr Nat :=
  match j with
  | .str s =>
    match pyUUID s with
    | some u => .ok u
    | none => .error .valueError
  | _ => .error .typeError

/-- A parsed `datetime` as returned by `ciso8601.parse_datetime`.  The parser
is an external C library (a collaborator, like the Marshaller in spec terms);
no claim inspects the parsed value, so the embedding records the input string
it was parsed from. -/
structure PyDateTime where
  source : String

/-- `ciso8601.parse_datetime` applied to a JSON value: a non-string argument
raises `TypeError`. -/
def parseDatetimeOfJson (j : Json) : Except PyErr PyDateTime :=
  match j with
  | .str s => .ok ⟨s⟩
  | _ => .error .typeError

/-! ## Typed events (events/_messages.py) -/

/-- `MessageDeletedEvent` (events/_messages.py lines 89-101): the dataclass
stores `_message_id`, `_channel_id` and `deleted_at`; the `message_id` and
`channel_id` properties expose the two private fields, which is what the
embedded fields are named after. -/
structure MessageDeletedEvent where
  message_id : Nat
  channel_id : Nat
  deleted_at : PyDateTime

/-- The concrete class of a typed event — the keys of the event manager's
`_dispatchers` mapping (keyed by `type(event)`, not polymorphic). -/
inductive EventType where
  | messageCreatedEvent
  | messageUpdatedEvent
  | messageDeletedEvent
  | teamXpAddedEvent
  deriving DecidableEq, Repr

/-- The typed events produced by the event manager's unmarshalling handlers.
The `Message` domain object carried by created/updated events is
field-mapping territory outside this core (the Marshaller is an external
collaborator), so those constructors carry the JSON object the marshaller
was given. -/
inductive BaseEvent where
  | messageCreated (message : Json)
  | messageUpdated (message : Json)
  | messageDeleted (event : MessageDeletedEvent)
  | teamXpAdded (userIds : List Nat) (amount : Json)

/-- `type(event)`: the concrete class of an event value. -/
def BaseEvent.typeOf : BaseEvent → EventType
  | .messageCreated _ => .messageCreatedEvent
  | .messageUpdated _ => .messageUpdatedEvent
  | .messageDeleted _ => .messageDeletedEvent
  | .teamXpAdded _ _ => .teamXpAddedEvent

/-! ## The unmarshalling handlers (impl/event_manager.py lines 231-252) -/

/-- `EventManager.process_chat_message_deleted`: rebinds `payload` to
`payload["message"]`, then builds the event from that sub-object's `id`,
`channelId` and `deletedAt` fields (raising `KeyError` on a missing key and
`ValueError` on a bad UUID). -/
def processChatMessageDeleted (payload : Json) : Except PyErr MessageDeletedEvent := do
  let message ← payload.getItem "message"
  let message_id ← pyUUIDOfJson (← message.getItem "id")
  let channel_id ← pyUUIDOfJson (← message.getItem "channelId")
  let deleted_at ← parseDatetimeOfJson (← message.getItem "deletedAt")
  return ⟨message_id, channel_id, deleted_at⟩

/-- `EventManager.process_chat_message_created`: unwraps the `message`
sub-object and hands it to the external Marshaller (whose output is carried
as that sub-object, see `BaseEvent`). -/
def processChatMessageCreated (payload : Json) : Except PyErr BaseEvent := do
  return .messageCreated (← payload.getItem "message")

/-- `EventManager.process_chat_message_updated`: same shape as the created
handler. -/
def processChatMessageUpdated (payload : Json) : Except PyErr BaseEvent := do
  return .messageUpdated (← payload.getItem "message")

/-- `EventManager.process_team_xp_added`: parses every element of
`payload["userIds"]` as a UUID and reads `payload["amount"]`. -/
def processTeamXpAdded (payload : Json) : Except PyErr BaseEvent := do
  let userIds ← payload.getItem "userIds"
  match userIds with
  | .arr uids =>
    let ids ← uids.mapM pyUUIDOfJson
    return .teamXpAdded ids (← payload.getItem "amount")
  | _ => .error .typeError

/-- The `_raw_listeners` table collected by `BaseEventManager.__post_init__`
from the four `@as_listener`-decorated methods of `EventManager`. -/
def rawListenerFor (event_name : String) : Option (Json → Except PyErr BaseEvent) :=
  if event_name = "ChatMessageCreated" then some processChatMessageCreated
  else if event_name = "ChatMessageUpdated" then some processChatMessageUpdated
  else if event_name = "ChatMessageDeleted" then
    some (fun payload => BaseEvent.messageDeleted <$> processChatMessageDeleted payload)
  else if event_name = "TeamXpAdded" then some processTeamXpAdded
  else none

/-! ## `BaseEventManager` / `EventManager` (impl/event_manager.py lines 127-252)

The manager's typed-dispatcher map is keyed by the concrete event class; the
embedding uses a function `EventType → Option (Dispatchable BaseEvent)`
(absent key ↦ `none`).  `_task_group` is set for the lifetime of `run`, so a
single flag records whether the run-loop has started.  The raw-listener table
of the `EventManager` subclass is the fixed `rawListenerFor` mapping. -/

structure EventManager where
  dispatchers : EventType → Option (Dispatchable BaseEvent)
  hasTaskGroup : Bool

/-- A freshly constructed manager: no dispatchers, no task group. -/
def EventManager.fresh : EventManager := ⟨fun _ => none, false⟩

/-- Point-update of the dispatcher map. -/
def EventManager.setDispatcher (m : EventManager) (t : EventType)
    (d : Option (Dispatchable BaseEvent)) : EventManager :=
  { m with dispatchers := fun u => if u = t then d else m.dispatchers u }

/-- `_get_or_create_dispatchable` followed by `add_callback`
(`BaseEventManager.add_listener`). -/
def EventManager.addListener (m : EventManager) (t : EventType) (cb : Nat) :
    EventManager :=
  m.setDispatcher t (some (((m.dispatchers t).getD Dispatchable.empty).addCallback cb))

/-- `_get_or_create_dispatchable` followed by `stream`
(`BaseEventManager.stream`). -/
def EventManager.streamFor (m : EventManager) (t : EventType) (bufferSize : Nat) :
    EventManager :=
  m.setDispatcher t (some (((m.dispatchers t).getD Dispatchable.empty).stream bufferSize))

/-- `BaseEventManager.remove_listener`: `self._dispatchers[event_type]` raises
`KeyError` on an unknown type, `remove_callback` raises `ValueError` on an
unknown callback, and the map entry is deleted when the dispatchable became
empty. -/
def EventManager.removeListener (m : EventManager) (t : EventType) (cb : Nat) :
    Except PyErr EventManager :=
  match m.dispatchers t with
  | none => .error (.keyError "event_type")
  | some d => do
    let d' ← d.removeCallback cb
    if d'.isEmpty then return m.setDispatcher t none
    else return m.setDispatcher t (some d')

/-- `BaseEventManager.get_task_group`: raises when the run-loop never
started. -/
def EventManager.getTaskGroup (m : EventManager) : Except PyErr Unit :=
  if m.hasTaskGroup then .ok () else .error (.runtimeError "Event manager isn't active")

/-- `BaseEventManager.dispatch`: looks up the dispatchable for the event's
concrete type; when absent the call returns doing nothing, when present
`get_task_group()` is evaluated (raising if the run-loop never started) and
the dispatchable's `dispatch` runs, scheduling each callback with the event.
The scheduled `(callback, event)` pairs are returned alongside the updated
manager. -/
def EventManager.dispatch (m : EventManager) (e : BaseEvent) :
    Except PyErr (EventManager × List (Nat × BaseEvent)) :=
  match m.dispatchers e.typeOf with
  | none => .ok (m, [])
  | some d => do
    _ ← m.getTaskGroup
    let (d', scheduled) := d.dispatch e
    return (m.setDispatcher e.typeOf (some d'), scheduled.map (fun cb => (cb, e)))

/-- `BaseEventManager.dispatch_raw`: looks up the raw-listener for the event
name; when present, converts the payload (exceptions propagate) and — since a
dataclass instance is always truthy — forwards the result to `dispatch`. -/
def EventManager.dispatchRaw (m : EventManager) (event_name : String)
    (payload : Json) : Except PyErr (EventManager × List (Nat × BaseEvent)) :=
  match rawListenerFor event_name with
  | none => .ok (m, [])
  | some listener => do
    let event ← listener payload
    m.dispatch event

/-! ## `WebSocketClient` receive path (impl/websocket.py lines 175-204)

`_handle_message` is a function of the client's receive-side state — the
stored last-message-id and the raw-dispatcher map — and the parse result of
one text frame (`none` for invalid JSON).  The attached event manager's
`dispatch_raw` is recorded at the call boundary (its behaviour is embedded
above); `MappingProxyType(data)` is a read-only view carrying the same JSON
value. -/

structure WebSocketRecvState where
  lastMessageId : Option Json
  rawDispatchers : String → Option (Dispatchable Json)
  hasEventManager : Bool

/-- Point-update of the raw-dispatcher map. -/
def WebSocketRecvState.setDispatcher (st : WebSocketRecvState) (name : String)
    (d : Option (Dispatchable Json)) : WebSocketRecvState :=
  { st with rawDispatchers := fun u => if u = name then d else st.rawDispatchers u }

/-- Everything observable about one `_handle_message` call. -/
structure HandleResult where
  /-- The client state when the call ends (also on an uncaught exception). -/
  state : WebSocketRecvState
  /-- The raw dispatchers invoked, as `(event name, payload)`. -/
  rawDispatched : List (String × Json)
  /-- The raw callbacks scheduled on the task group, with their payloads. -/
  scheduled : List (Nat × Json)
  /-- The `(event_name, data)` calls forwarded to the event manager. -/
  emDispatched : List (Json × Json)
  /-- An exception that escaped `_handle_message`, if any. -/
  raised : Option PyErr

/-- The op-0 branch of `_handle_message` after `t` and `d` were read:
`self._raw_dispatchers.get(event_name)` raises `TypeError` when the event
name is unhashable (a list or dict), misses for any other non-string name,
and dispatches when a dispatcher is registered; then the payload is forwarded
to the attached event manager. -/
def handleDispatchFrame (st : WebSocketRecvState) (t d : Json) : HandleResult :=
  match t with
  | .arr _ => ⟨st, [], [], [], some .typeError⟩
  | .obj _ => ⟨st, [], [], [], some .typeError⟩
  | .str event_name =>
    let (st, rawDispatched, scheduled) :=
      match st.rawDispatchers event_name with
      | some dispatcher =>
        let (dispatcher', cbs) := dispatcher.dispatch d
        (st.setDispatcher event_name (some dispatcher'), [(event_name, d)],
          cbs.map (fun cb => (cb, d)))
      | none => (st, [], [])
    ⟨st, rawDispatched, scheduled, if st.hasEventManager then [(t, d)] else [], none⟩
  | _ => ⟨st, [], [], if st.hasEventManager then [(t, d)] else [], none⟩

/-- The walrus step `if last_message_id := payload.get("s"):` of
`_handle_message`: a truthy `s` field overwrites the stored last-message-id,
anything else (absent, `null`, `""`, …) leaves it alone. -/
def sUpdate (st : WebSocketRecvState) (payload : Json) : WebSocketRecvState :=
  match payload.get? "s" with
  | some v => if v.pyTruthy then { st with lastMessageId := some v } else st
  | none => st

/-- `WebSocketClient._handle_message` on one text frame (`none` = the frame's
contents were not valid JSON, which is logged and dropped).  For a parsed
payload the `sUpdate` walrus step runs before the opcode check;
`payload["t"]` / `payload["d"]` raise `KeyError` out of the handler when
absent on an op-0 frame; any opcode other than 0 is logged and the frame
dropped. -/
def handleMessage (st : WebSocketRecvState) (message : Option Json) : HandleResult :=
  match message with
  | none => ⟨st, [], [], [], none⟩
  | some payload =>
    let st := sUpdate st payload
    if ((payload.get? "op").map Json.pyEqZero).getD false then
      match payload.getItem "t" with
      | .error e => ⟨st, [], [], [], some e⟩
      | .ok t =>
        match payload.getItem "d" with
        | .error e => ⟨st, [], [], [], some e⟩
        | .ok d => handleDispatchFrame st t d
    else
      ⟨st, [], [], [], none⟩

/-- `WebSocketClient.remove_raw_listener` (impl/websocket.py lines 277-281):
same contract as the typed `remove_listener`, keyed by event name. -/
def removeRawListener (st : WebSocketRecvState) (event_name : String) (cb : Nat) :
    Except PyErr WebSocketRecvState :=
  match st.rawDispatchers event_name with
  | none => .error (.keyError event_name)
  | some d => do
    let d' ← d.removeCallback cb
    if d'.isEmpty then return st.setDispatcher event_name none
    else return st.setDispatcher event_name (some d')

/-! ## `WebSocketClient` lifecycle (impl/websocket.py lines 206-237)

The lifecycle-relevant attributes are whether `_client` and `_cancel_scope`
are set and whether `_join_event` exists (and is signalled).  `run` connects,
creates the join event, and enters the task group that owns both the receive
loop and the heartbeat; its `finally` block closes the socket, signals the
join event, and clears all three attributes.

`close` cancels the scope and awaits `join`.  Under the cooperative
scheduler this is deterministic: `cancel()` does not suspend, `join` reads
`_join_event` before its first suspension point (so it sees the still-live
event), and only then does the cancelled run task execute its `finally`
block — socket close, join-event signal, attribute reset — which wakes the
waiter.  `wsClose` therefore returns the action trace of that cleanup and
the fully torn-down state. -/

inductive WsAction where
  | cancelledScope
  | closedSocket
  | setJoinEvent
  deriving DecidableEq, Repr

structure WsLifecycle where
  hasClient : Bool
  hasCancelScope : Bool
  /-- `none` when `_join_event is None`, otherwise whether it is set. -/
  joinEvent : Option Bool
  deriving DecidableEq, Repr

/-- A client that was never started (or whose previous session finished). -/
def WsLifecycle.inactive : WsLifecycle := ⟨false, false, none⟩

/-- A client inside an active `run` session. -/
def WsLifecycle.active : WsLifecycle := ⟨true, true, some false⟩

/-- `WebSocketClient.run`, up to entering the receive loop: fails fast when a
connection is already active, otherwise the resulting state is the active
session (socket connected, join event created, cancel scope installed). -/
def wsRun (c : WsLifecycle) : Except PyErr WsLifecycle :=
  if c.hasClient then .error (.runtimeError "Websocket client already running")
  else .ok WsLifecycle.active

/-- `WebSocketClient.join`: raises when `_join_event` does not exist,
otherwise blocks until the event is signalled and returns. -/
def wsJoin (c : WsLifecycle) : Except PyErr Unit :=
  match c.joinEvent with
  | none => .error (.runtimeError "Websocket client isn't running")
  | some _ => .ok ()

/-- `WebSocketClient.close`: raises when no cancel scope is installed;
otherwise cancels the scope, which runs the session's cleanup (socket close,
join-event signal) before the awaited `join` returns. -/
def wsClose (c : WsLifecycle) : Except PyErr (List WsAction × WsLifecycle) :=
  if !c.hasCancelScope then .error (.runtimeError "Websocket client isn't running")
  else
    match c.joinEvent with
    | none => .error (.runtimeError "Websocket client isn't running")
    | some _ => .ok ([.cancelledScope, .closedSocket, .setJoinEvent], WsLifecycle.inactive)

/-! ## `WebSocketBot.close` / `WebSocketBot.join` (impl/bot.py lines 117-137)

The lifecycle-relevant attributes are `_close_scope` (set for the lifetime of
`run`), `_is_closing`, and `_join_event`.  Both methods are embedded exactly
as written — note that in the source neither has a `return` before the final
`raise RuntimeError("Bot is not running")`, so both fall through to the raise
even after a successful wait. -/

inductive BotAction where
  | closedWebsocket
  | closedEventManager
  | closedRest
  | waitedJoin
  deriving DecidableEq, Repr

structure WebSocketBotState where
  hasCloseScope : Bool
  isClosing : Bool
  /-- `none` when `_join_event is None`, otherwise whether it is set. -/
  joinEvent : Option Bool
  deriving DecidableEq, Repr

/-- `WebSocketBot.join`: waits on the join event when it exists, then
unconditionally raises. -/
def botJoin (b : WebSocketBotState) : List BotAction × Except PyErr Unit :=
  (if b.joinEvent.isSome then [.waitedJoin] else [],
    .error (.runtimeError "Bot is not running"))

/-- `WebSocketBot.close`: a close already in flight joins via `botJoin`;
otherwise, when running, it shuts down the websocket, event manager and REST
client, waits on the join event — and then falls through to the
unconditional raise. -/
def botClose (b : WebSocketBotState) : List BotAction × Except PyErr Unit :=
  if b.isClosing then botJoin b
  else if b.hasCloseScope && b.joinEvent.isSome then
    ([.closedWebsocket, .closedEventManager, .closedRest, .waitedJoin],
      .error (.runtimeError "Bot is not running"))
  else ([], .error (.runtimeError "Bot is not running"))

/-- Dispatch a list of values through one `Dispatchable` in order, keeping
the state (the scheduled callbacks of each step are not consumed here). -/
def dispatchAll (d : Dispatchable T) (values : List T) : Dispatchable T :=
  values.foldl (fun d v => (d.dispatch v).1) d

/-! # Theorems -/

/-- Dispatching through a dispatchable with a single open stream of capacity
`B` and pending buffer `buf` appends exactly the first `B - buf.length`
values; later values are dropped (the stream is kept, the buffer unchanged)
and nothing ever blocks or errors. -/
theorem dispatchAll_one_open_stream {T : Type} (B : Nat) (vs : List T) :
    ∀ buf : List T,
      dispatchAll ⟨[], [⟨B, buf, false⟩]⟩ vs =
        ⟨[], [⟨B, buf ++ vs.take (B - buf.length), false⟩]⟩ := by
  induction vs with
  | nil => intro buf; simp [dispatchAll]
  | cons v vs ih =>
    intro buf
    show dispatchAll (Dispatchable.dispatch ⟨[], [⟨B, buf, false⟩]⟩ v).1 vs = _
    by_cases h : B ≤ buf.length
    · have hs : (Dispatchable.dispatch (⟨[], [⟨B, buf, false⟩]⟩ : Dispatchable T) v).1
          = ⟨[], [⟨B, buf, false⟩]⟩ := by
        simp [Dispatchable.dispatch, dispatchToStreams, MemoryStream.sendNowait, h]
      rw [hs, ih buf]
      have h0 : B - buf.length = 0 := Nat.sub_eq_zero_of_le h
      simp [h0]
    · have hs : (Dispatchable.dispatch (⟨[], [⟨B, buf, false⟩]⟩ : Dispatchable T) v).1
          = ⟨[], [⟨B, buf ++ [v], false⟩]⟩ := by
        simp [Dispatchable.dispatch, dispatchToStreams, MemoryStream.sendNowait, h]
      rw [hs, ih (buf ++ [v])]
      have hsub : B - buf.length = (B - (buf.length + 1)) + 1 := by omega
      simp [hsub, List.take_succ_cons, List.append_assoc]

/-- C4: dispatching `N` values to a `Dispatchable` with exactly one subscriber
of buffer size `B` and no consumption retains exactly the successfully
enqueued values (the first `min N B`, i.e. `vs.take B`) in the subscriber's
queue; every value beyond `B` is dropped for that subscriber — the stream
stays registered with an unchanged buffer — and `dispatch` is a total
function that never raises to or blocks the caller (the `WouldBlock` branch
is a silent drop). -/
theorem claim_C4_single_subscriber_buffer (T : Type) (B : Nat) (vs : List T) :
    dispatchAll (Dispatchable.empty.stream B) vs = ⟨[], [⟨B, vs.take B, false⟩]⟩ := by
  simpa using dispatchAll_one_open_stream B vs []

/-- The callback list of a `Dispatchable`, viewed as a multiset, evolves under
any operation sequence exactly as the net-callback fold does. -/
theorem applyDispOps_callbacks_multiset {T : Type} (ops : List DispOp) :
    ∀ d : Dispatchable T,
      ((applyDispOps d ops).callbacks : Multiset Nat) =
        ops.foldl netCallbackStep (↑d.callbacks) := by
  induction ops with
  | nil => intro d; rfl
  | cons op ops ih =>
    intro d
    show ((applyDispOps (applyDispOp d op) ops).callbacks : Multiset Nat) =
      ops.foldl netCallbackStep (netCallbackStep (↑d.callbacks) op)
    rw [ih]
    congr 1
    cases op with
    | addCallback cb =>
      show ((d.callbacks ++ [cb] : List Nat) : Multiset Nat) = cb ::ₘ ↑d.callbacks
      rw [Multiset.cons_coe, Multiset.coe_eq_coe]
      exact List.perm_append_singleton cb d.callbacks
    | removeCallback cb =>
      by_cases h : cb ∈ d.callbacks
      · show ((applyDispOp d (.removeCallback cb)).callbacks : Multiset Nat) =
          (↑d.callbacks : Multiset Nat).erase cb
        simp [applyDispOp, Dispatchable.removeCallback, h, Multiset.coe_erase]
      · show ((applyDispOp d (.removeCallback cb)).callbacks : Multiset Nat) =
          (↑d.callbacks : Multiset Nat).erase cb
        rw [Multiset.erase_of_not_mem (by simpa using h)]
        simp [applyDispOp, Dispatchable.removeCallback, h]
    | stream bufferSize => rfl

/-- The number of subscriber streams after a sequence of operations is the
starting count plus the number of `stream` operations (nothing closes one). -/
theorem applyDispOps_streams_length {T : Type} (ops : List DispOp) :
    ∀ d : Dispatchable T,
      (applyDispOps d ops).streams.length = d.streams.length + netStreamCount ops := by
  induction ops with
  | nil => intro d; simp [applyDispOps, netStreamCount]
  | cons op ops ih =>
    intro d
    show (applyDispOps (applyDispOp d op) ops).streams.length = _
    rw [ih]
    cases op with
    | addCallback cb => simp [applyDispOp, Dispatchable.addCallback, netStreamCount]
    | removeCallback cb =>
      by_cases h : cb ∈ d.callbacks <;>
        simp [applyDispOp, Dispatchable.removeCallback, h, netStreamCount]
    | stream bufferSize =>
      simp [applyDispOp, Dispatchable.stream, netStreamCount, List.countP_cons]
      omega

/-- C5: for every sequence of `add_callback` / `remove_callback` / `stream`
operations applied to a fresh `Dispatchable`, `is_empty` is true if and only
if the net resulting collection of registered callbacks and open subscriber
streams is empty (a failed removal raises `ValueError` and leaves the state
unchanged, matching the erase-of-absent no-op in the net fold). -/
theorem claim_C5_isEmpty_iff_net_empty (T : Type) (ops : List DispOp) :
    (applyDispOps (Dispatchable.empty : Dispatchable T) ops).isEmpty = true ↔
      (netCallbacks ops = 0 ∧ netStreamCount ops = 0) := by
  have hc := applyDispOps_callbacks_multiset (T := T) ops Dispatchable.empty
  have hs := applyDispOps_streams_length (T := T) ops Dispatchable.empty
  constructor
  · intro h
    have h' := h
    simp [Dispatchable.isEmpty, List.isEmpty_iff, List.length_eq_zero] at h'
    refine ⟨?_, ?_⟩
    · calc netCallbacks ops
          = ((applyDispOps (Dispatchable.empty : Dispatchable T) ops).callbacks :
              Multiset Nat) := hc.symm
        _ = 0 := by rw [h'.1]; rfl
    · have : (applyDispOps (Dispatchable.empty : Dispatchable T) ops).streams.length = 0 := by
        rw [h'.2]; rfl
      omega
  · rintro ⟨h1, h2⟩
    have hcb : (applyDispOps (Dispatchable.empty : Dispatchable T) ops).callbacks = [] := by
      rw [← Multiset.coe_eq_zero, hc]
      exact h1
    have hst : (applyDispOps (Dispatchable.empty : Dispatchable T) ops).streams = [] := by
      have : (applyDispOps (Dispatchable.empty : Dispatchable T) ops).streams.length = 0 := by
        rw [hs, h2]
        rfl
      exact List.length_eq_zero.mp this
    simp [Dispatchable.isEmpty, hcb, hst]

/-- C1 (counterexample): the claim states that for a raw payload with `id`,
`channelId` and `deletedAt` at top level the "ChatMessageDeleted" handler
produces a typed `MessageDeletedEvent` with the parsed UUIDs.  On exactly
that payload the handler first executes `payload = payload["message"]`
(impl/event_manager.py line 241) and raises `KeyError("message")` instead of
producing any event. -/
theorem claim_C1_counterexample :
    processChatMessageDeleted
        (.obj [("id", .str "00000000-0000-0000-0000-000000000001"),
               ("channelId", .str "00000000-0000-0000-0000-000000000002"),
               ("deletedAt", .str "2021-01-01T00:00:00.000Z")]) =
      .error (.keyError "message") ∧
    processChatMessageDeleted
        (.obj [("id", .str "00000000-0000-0000-0000-000000000001"),
               ("channelId", .str "00000000-0000-0000-0000-000000000002"),
               ("deletedAt", .str "2021-01-01T00:00:00.000Z")]) ≠
      .ok ⟨1, 2, ⟨"2021-01-01T00:00:00.000Z"⟩⟩ := by
  have h1 : processChatMessageDeleted
      (.obj [("id", .str "00000000-0000-0000-0000-000000000001"),
             ("channelId", .str "00000000-0000-0000-0000-000000000002"),
             ("deletedAt", .str "2021-01-01T00:00:00.000Z")]) =
      .error (.keyError "message") := rfl
  exact ⟨h1, fun h => Except.noConfusion (h1.symm.trans h)⟩

/-- C1 (amended): for a raw payload whose `message` sub-object carries `id`,
`channelId` and `deletedAt` fields, the "ChatMessageDeleted" handler produces
a `MessageDeletedEvent` whose `message_id` and `channel_id` equal the parsed
UUIDs of the sub-object's `id` and `channelId`; the result is unaffected by
any other fields present in the payload (the handler reads the three fields
from the nested `message` sub-object, not directly from the raw payload). -/
theorem claim_C1_amended (payload m : Json) (idStr chStr delStr : String) (u1 u2 : Nat)
    (hm : payload.get? "message" = some m)
    (hid : m.get? "id" = some (.str idStr))
    (hu1 : pyUUID idStr = some u1)
    (hch : m.get? "channelId" = some (.str chStr))
    (hu2 : pyUUID chStr = some u2)
    (hdel : m.get? "deletedAt" = some (.str delStr)) :
    processChatMessageDeleted payload = .ok ⟨u1, u2, ⟨delStr⟩⟩ ∧
    ∀ payload' : Json, payload'.get? "message" = some m →
      processChatMessageDeleted payload' = .ok ⟨u1, u2, ⟨delStr⟩⟩ := by
  have main : ∀ p : Json, p.get? "message" = some m →
      processChatMessageDeleted p = .ok ⟨u1, u2, ⟨delStr⟩⟩ := by
    intro p hp
    simp [processChatMessageDeleted, Json.getItem, hp, hid, hch, hdel, pyUUIDOfJson,
      hu1, hu2, parseDatetimeOfJson, Except.bind, bind, pure, Except.pure]
  exact ⟨main payload hm, main⟩

/-- C1 (witness): the amended theorem applied to a concrete payload carrying
extra fields at both levels; the two UUID strings parse to 1 and 2. -/
theorem claim_C1_amended_witness :
    processChatMessageDeleted
        (.obj [("serverId", .str "abc"),
               ("message", .obj [("id", .str "00000000-0000-0000-0000-000000000001"),
                                 ("channelId", .str "00000000-0000-0000-0000-000000000002"),
                                 ("deletedAt", .str "2021-01-01T00:00:00.000Z"),
                                 ("extra", .num 5)])]) =
      .ok ⟨1, 2, ⟨"2021-01-01T00:00:00.000Z"⟩⟩ :=
  (claim_C1_amended
      (.obj [("serverId", .str "abc"),
             ("message", .obj [("id", .str "00000000-0000-0000-0000-000000000001"),
                               ("channelId", .str "00000000-0000-0000-0000-000000000002"),
                               ("deletedAt", .str "2021-01-01T00:00:00.000Z"),
                               ("extra", .num 5)])])
      (.obj [("id", .str "00000000-0000-0000-0000-000000000001"),
             ("channelId", .str "00000000-0000-0000-0000-000000000002"),
             ("deletedAt", .str "2021-01-01T00:00:00.000Z"),
             ("extra", .num 5)])
      "00000000-0000-0000-0000-000000000001"
      "00000000-0000-0000-0000-000000000002"
      "2021-01-01T00:00:00.000Z" 1 2
      rfl rfl (by decide) rfl (by decide) rfl).1

/-- C2 (counterexample): the claim states that dispatch before the run-loop
has started fails with a "not active" error for every event value.  On a
fresh manager (run-loop not started, no dispatcher registered) dispatching an
event returns normally as a no-op — `get_task_group()` is only reached when a
dispatcher for the event's type exists. -/
theorem claim_C2_counterexample :
    EventManager.fresh.dispatch (.messageCreated .null) = .ok (EventManager.fresh, []) ∧
    EventManager.fresh.dispatch (.messageCreated .null) ≠
      .error (.runtimeError "Event manager isn't active") := by
  have h1 : EventManager.fresh.dispatch (.messageCreated .null) =
      .ok (EventManager.fresh, []) := rfl
  exact ⟨h1, fun h => Except.noConfusion (h1.symm.trans h)⟩

/-- C2 (amended): `dispatch(event)` looks up the Dispatchable for the event's
concrete type; when absent it is a no-op even before the run-loop has
started; when present, it fails with the "not active" error if the run-loop
has not started, and otherwise calls the Dispatchable's `dispatch`,
scheduling every registered callback with the event. -/
theorem claim_C2_amended (m : EventManager) (e : BaseEvent) :
    (m.dispatchers e.typeOf = none → m.dispatch e = .ok (m, [])) ∧
    (∀ d, m.dispatchers e.typeOf = some d → m.hasTaskGroup = false →
      m.dispatch e = .error (.runtimeError "Event manager isn't active")) ∧
    (∀ d, m.dispatchers e.typeOf = some d → m.hasTaskGroup = true →
      m.dispatch e = .ok (m.setDispatcher e.typeOf (some (d.dispatch e).1),
        (d.dispatch e).2.map (fun cb => (cb, e)))) := by
  refine ⟨fun h => ?_, fun d h ht => ?_, fun d h ht => ?_⟩
  · simp [EventManager.dispatch, h]
  · simp [EventManager.dispatch, h, EventManager.getTaskGroup, ht, Except.bind, bind]
  · simp [EventManager.dispatch, h, EventManager.getTaskGroup, ht, Except.bind, bind,
      pure, Except.pure]

/-- C2 (witness): a manager with one registered listener and no started
run-loop does raise the "not active" error. -/
theorem claim_C2_amended_witness :
    (EventManager.fresh.addListener .messageCreatedEvent 7).dispatch (.messageCreated .null) =
      .error (.runtimeError "Event manager isn't active") :=
  (claim_C2_amended (EventManager.fresh.addListener .messageCreatedEvent 7)
      (.messageCreated .null)).2.1 ⟨[7], []⟩ rfl rfl

/-- C3 (code bug): on a running bot, `close()` does request shutdown of the
websocket, event manager and REST client and waits for the run-loop's join
event — but then falls through to `raise RuntimeError("Bot is not running")`
instead of returning normally (impl/bot.py line 137 has no `return` before
the raise; the docstring "Instruct the bot to close and wait until it's
finished closing" and the claim both expect a normal return, and `join` at
line 122 has the same missing-`return` slip, so a concurrent `close` that
joins the in-flight shutdown also ends in the raise). -/
theorem claim_C3_close_raises_after_shutdown :
    botClose ⟨true, false, some false⟩ =
      ([.closedWebsocket, .closedEventManager, .closedRest, .waitedJoin],
        .error (.runtimeError "Bot is not running")) ∧
    botClose ⟨true, true, some false⟩ =
      ([.waitedJoin], .error (.runtimeError "Bot is not running")) :=
  ⟨rfl, rfl⟩

/-- C7: the websocket connection's lifecycle usage errors are raised
synchronously to the offending caller — `run` fails fast ("already running")
when a connection is active, `close` and `join` fail ("isn't running") when
inactive / never started — and `close` on an active connection cancels the
running scope and returns only after the run-loop's cleanup (socket close,
join-event signal), leaving the fully torn-down state. -/
theorem claim_C7_ws_lifecycle (c : WsLifecycle) :
    (c.hasClient = true →
      wsRun c = .error (.runtimeError "Websocket client already running")) ∧
    (c.hasCancelScope = false →
      wsClose c = .error (.runtimeError "Websocket client isn't running")) ∧
    (c.joinEvent = none →
      wsJoin c = .error (.runtimeError "Websocket client isn't running")) ∧
    (c.hasCancelScope = true → ∀ b, c.joinEvent = some b →
      wsClose c = .ok ([.cancelledScope, .closedSocket, .setJoinEvent],
        WsLifecycle.inactive)) := by
  refine ⟨fun h => ?_, fun h => ?_, fun h => ?_, fun h b hb => ?_⟩
  · simp [wsRun, h]
  · simp [wsClose, h]
  · simp [wsJoin, h]
  · simp [wsClose, h, hb]

/-- C7 (witness): the four branches at the concrete active / inactive
states. -/
theorem claim_C7_ws_lifecycle_witness :
    wsRun WsLifecycle.active = .error (.runtimeError "Websocket client already running") ∧
    wsClose WsLifecycle.inactive = .error (.runtimeError "Websocket client isn't running") ∧
    wsJoin WsLifecycle.inactive = .error (.runtimeError "Websocket client isn't running") ∧
    wsClose WsLifecycle.active =
      .ok ([.cancelledScope, .closedSocket, .setJoinEvent], WsLifecycle.inactive) :=
  ⟨(claim_C7_ws_lifecycle WsLifecycle.active).1 rfl,
   (claim_C7_ws_lifecycle WsLifecycle.inactive).2.1 rfl,
   (claim_C7_ws_lifecycle WsLifecycle.inactive).2.2.1 rfl,
   (claim_C7_ws_lifecycle WsLifecycle.active).2.2.2 rfl false rfl⟩

/-- C8: a text frame whose contents are not valid JSON is logged and dropped:
the handler returns without raising, without any dispatch, and with the
client state (last-message-id, raw dispatchers) unchanged — and a well-formed
frame handled afterwards is processed exactly as if the malformed frame had
never arrived. -/
theorem claim_C8_malformed_frame_dropped (st : WebSocketRecvState)
    (frame2 : Option Json) :
    handleMessage st none = ⟨st, [], [], [], none⟩ ∧
    handleMessage (handleMessage st none).state frame2 = handleMessage st frame2 :=
  ⟨rfl, rfl⟩

/-- `handleDispatchFrame` never touches the stored last-message-id. -/
theorem handleDispatchFrame_lastMessageId (st : WebSocketRecvState) (t d : Json) :
    (handleDispatchFrame st t d).state.lastMessageId = st.lastMessageId := by
  cases t with
  | str name =>
    cases h : st.rawDispatchers name with
    | some disp => simp [handleDispatchFrame, h, WebSocketRecvState.setDispatcher]
    | none => simp [handleDispatchFrame, h]
  | null => rfl
  | bool b => rfl
  | num n => rfl
  | arr elements => rfl
  | obj fields => rfl

/-- On any parsed frame, the resulting last-message-id is whatever the
`sUpdate` walrus step produced — no later branch modifies it. -/
theorem handleMessage_some_lastMessageId (st : WebSocketRecvState) (payload : Json) :
    (handleMessage st (some payload)).state.lastMessageId =
      (sUpdate st payload).lastMessageId := by
  show (if ((payload.get? "op").map Json.pyEqZero).getD false then _ else _ :
    HandleResult).state.lastMessageId = _
  split
  · cases ht : payload.getItem "t" with
    | error e => simp [ht]
    | ok t =>
      cases hd : payload.getItem "d" with
      | error e => simp [ht, hd]
      | ok d => simp [ht, hd, handleDispatchFrame_lastMessageId]
  · rfl

/-- C10: for every parseable text frame, whatever its opcode, the stored
last-message-id is overwritten with the envelope's `s` field exactly when
that field is present and truthy (Python truthiness: absent, `null`, `""`,
`false`, `0`, `[]`, `{}` all leave it unchanged). -/
theorem claim_C10_s_updates_last_message_id (st : WebSocketRecvState) (payload : Json) :
    (handleMessage st (some payload)).state.lastMessageId =
      match payload.get? "s" with
      | some v => if v.pyTruthy then some v else st.lastMessageId
      | none => st.lastMessageId := by
  rw [handleMessage_some_lastMessageId]
  unfold sUpdate
  cases payload.get? "s" with
  | none => rfl
  | some v => by_cases hv : v.pyTruthy <;> simp [hv]

/-- The `sUpdate` walrus step never touches the raw-dispatcher map. -/
theorem sUpdate_rawDispatchers (st : WebSocketRecvState) (payload : Json) :
    (sUpdate st payload).rawDispatchers = st.rawDispatchers := by
  unfold sUpdate
  cases payload.get? "s" with
  | none => rfl
  | some v => by_cases hv : v.pyTruthy <;> simp [hv]

/-- The `sUpdate` walrus step never detaches the event manager. -/
theorem sUpdate_hasEventManager (st : WebSocketRecvState) (payload : Json) :
    (sUpdate st payload).hasEventManager = st.hasEventManager := by
  unfold sUpdate
  cases payload.get? "s" with
  | none => rfl
  | some v => by_cases hv : v.pyTruthy <;> simp [hv]

/-- C9 (counterexample): the claim states a non-zero-opcode envelope is
dropped "with no change to the client's state".  The envelope
`{"op": 1, "s": "123"}` is indeed dropped without dispatch, but the stored
last-message-id changes from `none` to `"123"`, because the `s` walrus update
runs before the opcode check. -/
theorem claim_C9_counterexample :
    (handleMessage ⟨none, fun _ => none, true⟩
        (some (.obj [("op", .num 1), ("s", .str "123")]))).rawDispatched = [] ∧
    (handleMessage ⟨none, fun _ => none, true⟩
        (some (.obj [("op", .num 1), ("s", .str "123")]))).emDispatched = [] ∧
    (handleMessage ⟨none, fun _ => none, true⟩
        (some (.obj [("op", .num 1), ("s", .str "123")]))).state.lastMessageId =
      some (.str "123") ∧
    (⟨none, fun _ => none, true⟩ : WebSocketRecvState).lastMessageId = none :=
  ⟨rfl, rfl, rfl, rfl⟩

/-- C9 (amended): only op 0 carries event data.  An op-0 envelope with string
event name `t` and payload `d` is dispatched by `t` with `d` to the
registered raw dispatcher (if any, scheduling its callbacks) and forwarded to
the attached event manager; an envelope with any other opcode (or no opcode)
is logged and dropped with no dispatch and no error — but on every parsed
frame the `s` walrus update may still overwrite the stored last-message-id,
which is the only state such frames can change. -/
theorem claim_C9_amended (st : WebSocketRecvState) (payload : Json) :
    ((∀ op, payload.get? "op" = some op → op.pyEqZero = false →
        handleMessage st (some payload) = ⟨sUpdate st payload, [], [], [], none⟩) ∧
     (payload.get? "op" = none →
        handleMessage st (some payload) = ⟨sUpdate st payload, [], [], [], none⟩)) ∧
    (∀ op name d, payload.get? "op" = some op → op.pyEqZero = true →
      payload.get? "t" = some (.str name) → payload.get? "d" = some d →
      (handleMessage st (some payload)).raised = none ∧
      (handleMessage st (some payload)).emDispatched =
        (if st.hasEventManager then [(.str name, d)] else []) ∧
      (st.rawDispatchers name = none →
        (handleMessage st (some payload)).rawDispatched = [] ∧
        (handleMessage st (some payload)).state = sUpdate st payload) ∧
      (∀ disp, st.rawDispatchers name = some disp →
        (handleMessage st (some payload)).rawDispatched = [(name, d)] ∧
        (handleMessage st (some payload)).scheduled =
          disp.callbacks.map (fun cb => (cb, d)) ∧
        (handleMessage st (some payload)).state =
          (sUpdate st payload).setDispatcher name (some (disp.dispatch d).1))) := by
  refine ⟨⟨fun op hop hz => ?_, fun hop => ?_⟩, fun op name d hop hz ht hd => ?_⟩
  · show (if ((payload.get? "op").map Json.pyEqZero).getD false then _ else _ :
      HandleResult) = _
    rw [hop]
    simp [hz]
  · show (if ((payload.get? "op").map Json.pyEqZero).getD false then _ else _ :
      HandleResult) = _
    rw [hop]
    simp
  · have hcond : ((payload.get? "op").map Json.pyEqZero).getD false = true := by
      rw [hop]; simp [hz]
    have hmsg : handleMessage st (some payload) =
        handleDispatchFrame (sUpdate st payload) (.str name) d := by
      show (if ((payload.get? "op").map Json.pyEqZero).getD false then _ else _ :
        HandleResult) = _
      rw [hcond]
      simp [Json.getItem, ht, hd]
    rw [hmsg]
    have hraw := sUpdate_rawDispatchers st payload
    have hem := sUpdate_hasEventManager st payload
    refine ⟨?_, ?_, fun hnone => ?_, fun disp hsome => ?_⟩
    · cases h2 : (sUpdate st payload).rawDispatchers name with
      | none => simp [handleDispatchFrame, h2]
      | some disp => simp [handleDispatchFrame, h2]
    · cases h2 : (sUpdate st payload).rawDispatchers name with
      | none => simp [handleDispatchFrame, h2, hem]
      | some disp =>
        simp [handleDispatchFrame, h2, WebSocketRecvState.setDispatcher, hem]
    · have h2 : (sUpdate st payload).rawDispatchers name = none := by
        rw [hraw]; exact hnone
      simp [handleDispatchFrame, h2]
    · have h2 : (sUpdate st payload).rawDispatchers name = some disp := by
        rw [hraw]; exact hsome
      refine ⟨?_, ?_, ?_⟩ <;> simp [handleDispatchFrame, h2, Dispatchable.dispatch]

/-- C9 (witness): a concrete op-2 envelope is dropped untouched, and a
concrete op-0 envelope is forwarded to the event manager under its event
name. -/
theorem claim_C9_amended_witness :
    handleMessage ⟨none, fun _ => none, true⟩ (some (.obj [("op", .num 2)])) =
      ⟨⟨none, fun _ => none, true⟩, [], [], [], none⟩ ∧
    (handleMessage ⟨none, fun _ => none, true⟩
        (some (.obj [("op", .num 0), ("t", .str "TeamXpAdded"), ("d", .null)]))).emDispatched =
      [(.str "TeamXpAdded", .null)] := by
  constructor
  · exact ((claim_C9_amended ⟨none, fun _ => none, true⟩
      (.obj [("op", .num 2)])).1).1 (.num 2) rfl rfl
  · have h := ((claim_C9_amended ⟨none, fun _ => none, true⟩
      (.obj [("op", .num 0), ("t", .str "TeamXpAdded"), ("d", .null)])).2
        (.num 0) "TeamXpAdded" .null rfl rfl rfl rfl).2.1
    simpa using h

/-- C6: on both layers (typed event class in the event manager, raw event
name in the websocket client), removing a listener deletes the type's map
entry exactly when the Dispatchable's `is_empty` becomes true after the
removal (i.e. no callbacks and no subscriber streams remain), and a
subsequent dispatch for that type is then a no-op rather than an error: the
typed `dispatch` returns without touching anything, and an op-0 frame for
the raw name produces no raw dispatch and no exception. -/
theorem claim_C6_empty_entry_removed (m : EventManager) (t : EventType) (cb : Nat)
    (d : Dispatchable BaseEvent)
    (h : m.dispatchers t = some d) (hc : cb ∈ d.callbacks)
    (st : WebSocketRecvState) (name : String) (rcb : Nat) (rd : Dispatchable Json)
    (hr : st.rawDispatchers name = some rd) (hrc : rcb ∈ rd.callbacks) :
    (m.removeListener t cb =
      .ok (if (⟨d.callbacks.erase cb, d.streams⟩ : Dispatchable BaseEvent).isEmpty then
        m.setDispatcher t none
      else m.setDispatcher t (some ⟨d.callbacks.erase cb, d.streams⟩))) ∧
    ((⟨d.callbacks.erase cb, d.streams⟩ : Dispatchable BaseEvent).isEmpty = true →
      (m.setDispatcher t none).dispatchers t = none ∧
      ∀ e : BaseEvent, e.typeOf = t →
        (m.setDispatcher t none).dispatch e = .ok (m.setDispatcher t none, [])) ∧
    ((⟨d.callbacks.erase cb, d.streams⟩ : Dispatchable BaseEvent).isEmpty = false →
      (m.setDispatcher t (some ⟨d.callbacks.erase cb, d.streams⟩)).dispatchers t ≠ none) ∧
    (removeRawListener st name rcb =
      .ok (if (⟨rd.callbacks.erase rcb, rd.streams⟩ : Dispatchable Json).isEmpty then
        st.setDispatcher name none
      else st.setDispatcher name (some ⟨rd.callbacks.erase rcb, rd.streams⟩))) ∧
    ((⟨rd.callbacks.erase rcb, rd.streams⟩ : Dispatchable Json).isEmpty = true →
      (st.setDispatcher name none).rawDispatchers name = none ∧
      ∀ d2 : Json,
        handleMessage (st.setDispatcher name none)
            (some (.obj [("op", .num 0), ("t", .str name), ("d", d2)])) =
          ⟨st.setDispatcher name none, [], [],
            if st.hasEventManager then [(.str name, d2)] else [], none⟩) ∧
    ((⟨rd.callbacks.erase rcb, rd.streams⟩ : Dispatchable Json).isEmpty = false →
      (st.setDispatcher name (some ⟨rd.callbacks.erase rcb, rd.streams⟩)).rawDispatchers
        name ≠ none) := by
  refine ⟨?_, fun hemp => ⟨?_, fun e he => ?_⟩, fun hemp => ?_, ?_,
    fun hemp => ⟨?_, fun d2 => ?_⟩, fun hemp => ?_⟩
  · by_cases hemp : (⟨d.callbacks.erase cb, d.streams⟩ : Dispatchable BaseEvent).isEmpty <;>
      simp [EventManager.removeListener, h, Dispatchable.removeCallback, hc, hemp,
        Except.bind, bind, pure, Except.pure]
  · simp [EventManager.setDispatcher]
  · simp [EventManager.dispatch, EventManager.setDispatcher, he]
  · simp [EventManager.setDispatcher, hemp]
  · by_cases hemp : (⟨rd.callbacks.erase rcb, rd.streams⟩ : Dispatchable Json).isEmpty <;>
      simp [removeRawListener, hr, Dispatchable.removeCallback, hrc, hemp,
        Except.bind, bind, pure, Except.pure]
  · simp [WebSocketRecvState.setDispatcher]
  · have hlook : (st.setDispatcher name none).rawDispatchers name = none := by
      simp [WebSocketRecvState.setDispatcher]
    have hred : handleMessage (st.setDispatcher name none)
        (some (.obj [("op", .num 0), ("t", .str name), ("d", d2)])) =
        handleDispatchFrame (st.setDispatcher name none) (.str name) d2 := rfl
    rw [hred]
    simp [handleDispatchFrame, hlook, WebSocketRecvState.setDispatcher]
  · simp [WebSocketRecvState.setDispatcher, hemp]

/-- C6 (witness): removing the single listener of `MessageDeletedEvent`
deletes the map entry, and a subsequent typed dispatch is a no-op. -/
theorem claim_C6_empty_entry_removed_witness :
    (EventManager.fresh.addListener .messageDeletedEvent 3).removeListener
        .messageDeletedEvent 3 =
      .ok ((EventManager.fresh.addListener .messageDeletedEvent 3).setDispatcher
        .messageDeletedEvent none) ∧
    ((EventManager.fresh.addListener .messageDeletedEvent 3).setDispatcher
        .messageDeletedEvent none).dispatch (.messageDeleted ⟨1, 2, ⟨"2021-01-01"⟩⟩) =
      .ok ((EventManager.fresh.addListener .messageDeletedEvent 3).setDispatcher
        .messageDeletedEvent none, []) := by
  have H := claim_C6_empty_entry_removed
      (EventManager.fresh.addListener .messageDeletedEvent 3) .messageDeletedEvent 3
      ⟨[3], []⟩ rfl (by decide)
      ⟨none, fun u => if u = "Evt" then some ⟨[4], []⟩ else none, false⟩ "Evt" 4
      ⟨[4], []⟩ rfl (by decide)
  exact ⟨H.1, (H.2.1 rfl).2 (.messageDeleted ⟨1, 2, ⟨"2021-01-01"⟩⟩) rfl⟩
